import Mathlib

/-!
Verification of the JGbackend product-catalog server.

The repository ships two variants of the same Express server:
* `src/server.js` — local-disk variant: images handled by `multer.diskStorage`
  (the file is written into `uploads/` by the multer middleware while the
  request body is parsed, i.e. before the route handler runs).
* `src/unnamed/part_000` — cloud variant: `multer.memoryStorage` plus an
  explicit `uploadToCloudinary` call inside the handler.

We shallowly embed the route handlers as pure functions over an explicit
state (product collection, blob store contents, id/clock counters).
JavaScript numbers are modelled exactly: `parseFloat` results are either
NaN (here `Option.none`), ±Infinity, or a finite value kept as an exact
rational (double rounding/overflow is not modelled; it does not affect the
NaN-validation behaviour the handlers branch on).
-/

/-- A JavaScript number that is not NaN: finite (kept exact as a rational)
or one of the two infinities. `parseFloat` returning NaN is modelled as
`Option.none` at the call site. -/
inductive JSNum where
  | finite (q : ℚ)
  | posInf
  | negInf
deriving DecidableEq, Repr

/-- Longest leading run of decimal digits of a character list, plus the rest. -/
def takeDigits : List Char → List Char × List Char
  | [] => ([], [])
  | c :: cs =>
    if c.isDigit then
      let r := takeDigits cs
      (c :: r.1, r.2)
    else
      ([], c :: cs)

/-- Value of a list of decimal digits, most significant first. -/
def digitsToNat (ds : List Char) : ℕ :=
  ds.foldl (fun acc c => 10 * acc + (c.toNat - '0'.toNat)) 0

/-- Parse the longest prefix of `cs` that is an unsigned decimal literal
(`digits`, `digits.digits`, `.digits`, optionally followed by an exponent
part `e`/`E` `[+-] digits`); `none` when no digit occurs before the
exponent, which is JavaScript `parseFloat` returning NaN. Mirrors the
StrDecimalLiteral grammar used by `parseFloat` in both route files. -/
def parseDecimalBody (cs : List Char) : Option ℚ :=
  let ipr := takeDigits cs
  let fpr : List Char × List Char :=
    match ipr.2 with
    | '.' :: cs2 => takeDigits cs2
    | _ => ([], ipr.2)
  if ipr.1.isEmpty && fpr.1.isEmpty then
    none
  else
    let mant : ℚ := (digitsToNat ipr.1 : ℚ) + (digitsToNat fpr.1 : ℚ) / ((10 : ℚ) ^ fpr.1.length)
    let expVal : ℤ :=
      match fpr.2 with
      | 'e' :: cs3 =>
        match cs3 with
        | '+' :: cs4 => if (takeDigits cs4).1.isEmpty then 0 else (digitsToNat (takeDigits cs4).1 : ℤ)
        | '-' :: cs4 => if (takeDigits cs4).1.isEmpty then 0 else -(digitsToNat (takeDigits cs4).1 : ℤ)
        | _ => if (takeDigits cs3).1.isEmpty then 0 else (digitsToNat (takeDigits cs3).1 : ℤ)
      | 'E' :: cs3 =>
        match cs3 with
        | '+' :: cs4 => if (takeDigits cs4).1.isEmpty then 0 else (digitsToNat (takeDigits cs4).1 : ℤ)
        | '-' :: cs4 => if (takeDigits cs4).1.isEmpty then 0 else -(digitsToNat (takeDigits cs4).1 : ℤ)
        | _ => if (takeDigits cs3).1.isEmpty then 0 else (digitsToNat (takeDigits cs3).1 : ℤ)
      | _ => 0
    some (mant * (10 : ℚ) ^ expVal)

/-- JavaScript's `parseFloat`, as invoked on the `price` field by both
variants: skip leading whitespace, optional sign, then either `Infinity`
or the longest decimal-literal prefix; NaN (`none`) when nothing parses. -/
def jsParseFloat (s : String) : Option JSNum :=
  let cs := s.data.dropWhile fun c => c == ' ' || c == '\t' || c == '\n' || c == '\r'
  let signed : Bool × List Char :=
    match cs with
    | '-' :: rest => (true, rest)
    | '+' :: rest => (false, rest)
    | _ => (false, cs)
  if signed.2.take 8 = ['I', 'n', 'f', 'i', 'n', 'i', 't', 'y'] then
    some (if signed.1 then JSNum.negInf else JSNum.posInf)
  else
    match parseDecimalBody signed.2 with
    | none => none
    | some q => some (JSNum.finite (if signed.1 then -q else q))

example : jsParseFloat "abc" = none := by decide
example : jsParseFloat "undefined" = none := by decide
example : jsParseFloat "" = none := by decide
example : jsParseFloat "Infinity" = some JSNum.posInf := by decide
example : jsParseFloat "-Infinity" = some JSNum.negInf := by decide

/-!
## Product data model and pipeline state

Cloud variant (`src/unnamed/part_000`): products carry a `category`; the
image is uploaded to Cloudinary from an in-memory buffer inside the
handler. The Blob Store outcome is passed in explicitly as an
`UploadOutcome` (the handler `await`s `uploadToCloudinary`, which either
resolves with a result carrying `secure_url` or rejects).
-/

/-- A product record as stored by the cloud variant's Mongoose model:
`name, description, price, category, image, date` plus the id Mongo
assigns. -/
structure Product where
  id : ℕ
  name : String
  description : String
  price : JSNum
  category : String
  image : String
  date : ℕ
deriving DecidableEq, Repr

/-- A multipart create/update request body. `price` is `none` when the
field is absent from the form (JavaScript `undefined`; `parseFloat`
then receives the string coercion "undefined"). The other text fields are
taken as present, and `file` is the optional in-memory upload buffer. -/
structure ProductRequest where
  name : String
  description : String
  price : Option String
  category : String
  file : Option (List ℕ)
deriving DecidableEq, Repr

/-- Outcome of the `uploadToCloudinary` promise: resolves with the
durable `secure_url`, or rejects. -/
inductive UploadOutcome where
  | ok (secureUrl : String)
  | err
deriving DecidableEq, Repr

/-- Server-side state the cloud-variant handlers read and write: the
product collection, the set of blob references durably stored at the
provider, the next id Mongo will assign, and the clock used for the
`date` default. -/
structure CloudState where
  db : List Product
  blobs : List String
  nextId : ℕ
  now : ℕ
deriving DecidableEq, Repr

/-- The `price` expression both handlers evaluate:
`parseFloat(req.body.price)`, where an absent field is `undefined` and is
coerced to the string "undefined" by `parseFloat`. -/
def parsedPrice (req : ProductRequest) : Option JSNum :=
  jsParseFloat (req.price.getD "undefined")

/-- Mongoose `Product.findByIdAndUpdate(id, updateData, {new: true})`:
`none` when no record has the id; otherwise the collection with the
matching record replaced by `f` applied to it. -/
def findByIdAndUpdate (db : List Product) (pid : ℕ) (f : Product → Product) :
    Option (List Product) :=
  if db.any fun q => q.id = pid then
    some (db.map fun q => if q.id = pid then f q else q)
  else
    none

/-- `POST /api/products` of the cloud variant: validate `price` via
`isNaN(parseFloat(price))` (400 on NaN), then, if a file was attached,
await the Cloudinary upload (rejection is caught and reported as 500 with
no record written), then insert the new product with `image` the
`secure_url` or `""`. Returns the HTTP status and the post-state. -/
def createProductCloud (st : CloudState) (req : ProductRequest) (u : UploadOutcome) :
    ℕ × CloudState :=
  match parsedPrice req with
  | none => (400, st)
  | some p =>
    match req.file with
    | none =>
      let prod : Product :=
        ⟨st.nextId, req.name, req.description, p, req.category, "", st.now⟩
      (201, { st with db := prod :: st.db, nextId := st.nextId + 1 })
    | some _ =>
      match u with
      | UploadOutcome.err => (500, st)
      | UploadOutcome.ok url =>
        let prod : Product :=
          ⟨st.nextId, req.name, req.description, p, req.category, url, st.now⟩
        (201, { st with db := prod :: st.db, blobs := url :: st.blobs,
                        nextId := st.nextId + 1 })

/-- `PUT /api/products/:id` of the cloud variant: validate `price` (400 on
NaN); if a file is attached, await the Cloudinary upload *before* the
database lookup (a rejection is caught as 500; a success durably stores
the blob even if the id then turns out not to exist); then
`findByIdAndUpdate` with `{name, description, price, category}` plus
`image` only when a file was uploaded; 404 when no record matches. -/
def updateProductCloud (st : CloudState) (pid : ℕ) (req : ProductRequest)
    (u : UploadOutcome) : ℕ × CloudState :=
  match parsedPrice req with
  | none => (400, st)
  | some p =>
    let step : Option (Option String × CloudState) :=
      match req.file with
      | none => some (none, st)
      | some _ =>
        match u with
        | UploadOutcome.err => none
        | UploadOutcome.ok url => some (some url, { st with blobs := url :: st.blobs })
    match step with
    | none => (500, st)
    | some (img, st1) =>
      match findByIdAndUpdate st1.db pid
          (fun q => { q with name := req.name, description := req.description,
                             price := p, category := req.category,
                             image := img.getD q.image }) with
      | none => (404, st1)
      | some db2 => (200, { st1 with db := db2 })

/-- `DELETE /api/products/:id` (same logic in both variants):
`findByIdAndDelete` — 404 and unchanged state when the id is absent,
otherwise the record is removed and 200 returned. -/
def deleteProduct (st : CloudState) (pid : ℕ) : ℕ × CloudState :=
  if st.db.any fun q => q.id = pid then
    (200, { st with db := st.db.filter fun q => q.id ≠ pid })
  else
    (404, st)

/-- `GET /api/products` (same in both variants):
`Product.find().sort({date: -1})` — every record, ordered by the `date`
field, most recent first. We model the sort as an insertion sort by
descending `date`. -/
def listProducts (db : List Product) : List Product :=
  db.insertionSort fun a b => b.date ≤ a.date

/-!
## Local-disk variant (`src/server.js`)

No `category` field in its schema. Crucially, images go through
`multer.diskStorage`: by multer's contract, the uploaded file is written
into `uploads/` (named `Date.now() + path.extname(originalname)`) during
body parsing by the `upload.single("image")` middleware, i.e. *before*
the route handler performs price validation.
-/

/-- A product record of the local variant's schema:
`name, description, price, image, date`. -/
structure LocalProduct where
  id : ℕ
  name : String
  description : String
  price : JSNum
  image : String
  date : ℕ
deriving DecidableEq, Repr

/-- A multipart create request for the local variant; `file` carries the
original filename's extension when a file is attached. -/
structure LocalRequest where
  name : String
  description : String
  price : Option String
  file : Option String
deriving DecidableEq, Repr

/-- State of the local variant: product collection, contents of the
`uploads/` directory, next Mongo id, and the clock (used both for the
`date` default and for `Date.now()` in the multer filename). -/
structure LocalState where
  db : List LocalProduct
  files : List String
  nextId : ℕ
  now : ℕ
deriving DecidableEq, Repr

/-- `POST /api/products` of the local variant. First the
`upload.single("image")` middleware runs: with a file attached,
`multer.diskStorage` writes it to `uploads/` under
`Date.now() + extension`. Only then does the handler validate `price`
(400 on NaN — the file, if any, already sits on disk) and otherwise
insert the product with `image` set to `/uploads/<filename>` or `""`. -/
def createProductLocal (st : LocalState) (req : LocalRequest) : ℕ × LocalState :=
  let mid : LocalState × Option String :=
    match req.file with
    | none => (st, none)
    | some ext =>
      let fname := Nat.repr st.now ++ ext
      ({ st with files := fname :: st.files }, some fname)
  match jsParseFloat (req.price.getD "undefined") with
  | none => (400, mid.1)
  | some p =>
    let image : String :=
      match mid.2 with
      | none => ""
      | some f => "/uploads/" ++ f
    let prod : LocalProduct :=
      ⟨mid.1.nextId, req.name, req.description, p, image, mid.1.now⟩
    (201, { mid.1 with db := prod :: mid.1.db, nextId := mid.1.nextId + 1 })

/-!
## Auth: login and token issuance (`POST /api/login`, both variants)

`bcrypt` and `jsonwebtoken` are third-party libraries; we model their
contracts: the stored password is a salted one-way hash of the plaintext
(modelled as an injective tagged encoding, so that `compare` accepts
exactly the hashed plaintext), and `jwt.sign({userId}, secret,
{expiresIn: "2h"})` issues a token whose decoded payload carries the
user id, the issue time, and an expiry 7200 seconds later.
-/

/-- Model of `bcrypt.hash(pw, 10)`: an injective tagged encoding standing
in for the salted one-way hash. -/
def bcryptHash (pw : String) : String := "$2b$10$" ++ pw

/-- Model of `bcrypt.compare(pw, stored)`: true exactly when `stored` is
the hash of `pw`. -/
def bcryptCompare (pw stored : String) : Bool := stored == bcryptHash pw

/-- Decoded payload of a signed JWT: `{userId, iat, exp}`. -/
structure Token where
  userId : ℕ
  iat : ℕ
  exp : ℕ
deriving DecidableEq, Repr

/-- `jwt.sign({userId: user._id}, JWT_SECRET, {expiresIn: "2h"})`:
expiry is issue time plus 7200 seconds. -/
def jwtSign (userId now : ℕ) : Token := ⟨userId, now, now + 7200⟩

/-- A stored user record: `password` holds the bcrypt hash, never the
plaintext. -/
structure UserRec where
  id : ℕ
  username : String
  email : String
  password : String
deriving DecidableEq, Repr

/-- Outcome of `POST /api/login`: 400 with an error message, or 200 with
the signed token and `{id, username}`. -/
inductive LoginResult where
  | badRequest (error : String)
  | ok (token : Token) (id : ℕ) (username : String)
deriving DecidableEq, Repr

/-- `User.findOne({email})`. -/
def findByEmail (users : List UserRec) (email : String) : Option UserRec :=
  users.find? fun u => u.email == email

/-- The login handler: unknown email → 400 "Invalid credentials"; known
email with failing `bcrypt.compare` → 400 "Wrong password"; otherwise a
2-hour token for the user's id. -/
def login (users : List UserRec) (now : ℕ) (email password : String) : LoginResult :=
  match findByEmail users email with
  | none => LoginResult.badRequest "Invalid credentials"
  | some user =>
    if bcryptCompare password user.password then
      LoginResult.ok (jwtSign user.id now) user.id user.username
    else
      LoginResult.badRequest "Wrong password"

/-!
## Helper lemmas
-/

/-- `parseFloat("undefined")` — the coercion of an absent field — is NaN. -/
theorem jsParseFloat_undefined_eq : jsParseFloat "undefined" = none := by decide

/-- `parseFloat("abc")` is NaN. -/
theorem jsParseFloat_abc_eq : jsParseFloat "abc" = none := by decide

/-- `parseFloat("1")` is the finite number 1. -/
theorem jsParseFloat_one_eq : jsParseFloat "1" = some (JSNum.finite 1) := by
  simp [jsParseFloat, parseDecimalBody, takeDigits, digitsToNat]

/-- `parseFloat("1.5")` is the finite number 3/2. -/
theorem jsParseFloat_one_point_five_eq :
    jsParseFloat "1.5" = some (JSNum.finite (3 / 2)) := by
  simp [jsParseFloat, parseDecimalBody, takeDigits, digitsToNat]
  norm_num

/-- `parseFloat("-5")` is the finite number -5 — not NaN, so it passes the
`isNaN` validation in both handlers. -/
theorem jsParseFloat_neg_five_eq : jsParseFloat "-5" = some (JSNum.finite (-5)) := by
  simp [jsParseFloat, parseDecimalBody, takeDigits, digitsToNat]

/-- The modelled bcrypt hash is injective, matching the spec's contract
that comparison succeeds only for the hashed plaintext. -/
theorem bcryptHash_injective : Function.Injective bcryptHash := by
  intro a b h
  have hd := congrArg String.data h
  simp [bcryptHash, String.data_append] at hd
  exact String.ext hd

/-!
## Claims
-/

/-- Claim C1, counterexample: the price string "-5" parses to a finite
*negative* number, yet `createProduct` succeeds with 201 and inserts the
record with price -5, instead of failing with ValidationError 400 as the
claim states. -/
theorem C1_counterexample :
    (createProductCloud ⟨[], [], 0, 7⟩ ⟨"pen", "d", some "-5", "c", none⟩
        UploadOutcome.err).1 = 201 ∧
    (createProductCloud ⟨[], [], 0, 7⟩ ⟨"pen", "d", some "-5", "c", none⟩
        UploadOutcome.err).2.db.map Product.price = [JSNum.finite (-5)] := by
  constructor
  · decide
  · simp [createProductCloud, parsedPrice, jsParseFloat_neg_five_eq]

/-- Claim C1, amended: a create or update request fails with
ValidationError (400) exactly when `parseFloat(price)` is NaN, i.e. for
non-numeric price strings; prices parsing to negative or infinite numbers
are accepted, since the handlers only test `isNaN`. -/
theorem C1_amended_validation_iff_nan (st : CloudState) (pid : ℕ) (req : ProductRequest)
    (u : UploadOutcome) :
    ((createProductCloud st req u).1 = 400 ↔ parsedPrice req = none) ∧
    ((updateProductCloud st pid req u).1 = 400 ↔ parsedPrice req = none) := by
  constructor
  · cases hp : parsedPrice req with
    | none => simp [createProductCloud, hp]
    | some p =>
      cases hf : req.file with
      | none => simp [createProductCloud, hp, hf]
      | some b => cases u <;> simp [createProductCloud, hp, hf]
  · cases hp : parsedPrice req with
    | none => simp [updateProductCloud, hp]
    | some p =>
      simp only [updateProductCloud, hp]
      split
      · simp_all
      · split <;> simp_all

/-- Claim C1, witness for the amended statement: a concrete non-numeric
price is rejected with 400. -/
theorem C1_witness :
    (createProductCloud ⟨[], [], 0, 0⟩ ⟨"n", "d", some "abc", "c", none⟩
        UploadOutcome.err).1 = 400 :=
  (C1_amended_validation_iff_nan ⟨[], [], 0, 0⟩ 0 ⟨"n", "d", some "abc", "c", none⟩
    UploadOutcome.err).1.mpr (by decide)

/-- Claim C2, counterexample: in the local-disk variant a create request
with non-numeric price "abc" and an attached file fails validation with
400, yet a blob *has* been written into `uploads/`: `multer.diskStorage`
stores the file during body parsing, before the handler validates. -/
theorem C2_counterexample :
    (createProductLocal ⟨[], [], 0, 1000⟩ ⟨"n", "d", some "abc", some ".png"⟩).1 = 400 ∧
    (createProductLocal ⟨[], [], 0, 1000⟩ ⟨"n", "d", some "abc", some ".png"⟩).2.files.length
      = 1 := by
  decide

/-- Claim C2, amended: when price validation fails, no product record is
inserted or modified in either variant, and in the cloud variant no blob
is written either; in the local-disk variant, however, an attached file
has already been written to disk by the upload middleware. -/
theorem C2_amended_no_record_on_validation_failure (st : CloudState) (pid : ℕ)
    (req : ProductRequest) (u : UploadOutcome) (stL : LocalState) (reqL : LocalRequest)
    (h : parsedPrice req = none)
    (hL : jsParseFloat (reqL.price.getD "undefined") = none) :
    createProductCloud st req u = (400, st) ∧
    updateProductCloud st pid req u = (400, st) ∧
    (createProductLocal stL reqL).1 = 400 ∧
    (createProductLocal stL reqL).2.db = stL.db ∧
    (reqL.file = none → (createProductLocal stL reqL).2 = stL) := by
  refine ⟨by simp [createProductCloud, h], by simp [updateProductCloud, h], ?_, ?_, ?_⟩
  · cases hf : reqL.file <;> simp [createProductLocal, hL, hf]
  · cases hf : reqL.file <;> simp [createProductLocal, hL, hf]
  · intro hf
    simp [createProductLocal, hL, hf]

/-- Claim C2, witness for the amended statement at a concrete input. -/
theorem C2_witness :
    createProductCloud ⟨[], [], 0, 0⟩ ⟨"n", "d", some "abc", "c", none⟩ UploadOutcome.err
      = (400, ⟨[], [], 0, 0⟩) :=
  (C2_amended_no_record_on_validation_failure ⟨[], [], 0, 0⟩ 0
    ⟨"n", "d", some "abc", "c", none⟩ UploadOutcome.err ⟨[], [], 0, 0⟩
    ⟨"n", "d", some "abc", none⟩ (by decide) (by decide)).1

/-- Claim C3 (confirmed): with a file attached and a failing Blob Store
upload, `createProduct` aborts with 500 (the spec's UploadError) and the
state — product collection and blob store alike — is exactly unchanged:
no partial product is created. -/
theorem C3_upload_failure_no_record (st : CloudState) (req : ProductRequest) (b : List ℕ)
    (p : JSNum) (hp : parsedPrice req = some p) (hf : req.file = some b) :
    createProductCloud st req UploadOutcome.err = (500, st) := by
  simp [createProductCloud, hp, hf]

/-- Claim C3, witness at a concrete input. -/
theorem C3_witness :
    createProductCloud ⟨[], [], 0, 0⟩ ⟨"n", "d", some "1", "c", some [0]⟩ UploadOutcome.err
      = (500, ⟨[], [], 0, 0⟩) :=
  C3_upload_failure_no_record ⟨[], [], 0, 0⟩ ⟨"n", "d", some "1", "c", some [0]⟩ [0]
    (JSNum.finite 1) (by simp [parsedPrice, jsParseFloat_one_eq]) rfl

/-- Claim C4 (confirmed): an update with no file attached succeeds on an
existing id, writes nothing to the blob store, and rewrites the
collection record-by-record so that every record keeps its `image` (and
its id and creation date); the matched record gets the request's name,
description, parsed price and category, and every other record is
untouched. -/
theorem C4_update_no_file_preserves_image (st : CloudState) (pid : ℕ)
    (req : ProductRequest) (u : UploadOutcome) (p : JSNum)
    (hp : parsedPrice req = some p) (hf : req.file = none)
    (hex : ∃ q ∈ st.db, q.id = pid) :
    (updateProductCloud st pid req u).1 = 200 ∧
    (updateProductCloud st pid req u).2.blobs = st.blobs ∧
    List.Forall₂ (fun old new =>
        new.image = old.image ∧ new.id = old.id ∧ new.date = old.date ∧
        (old.id = pid → new.name = req.name ∧ new.description = req.description ∧
          new.price = p ∧ new.category = req.category) ∧
        (old.id ≠ pid → new = old))
      st.db (updateProductCloud st pid req u).2.db := by
  obtain ⟨w, hw, hwid⟩ := hex
  have hany : (st.db.any fun q => q.id = pid) = true := by
    simp only [List.any_eq_true, decide_eq_true_eq]
    exact ⟨w, hw, hwid⟩
  refine ⟨by simp [updateProductCloud, hp, hf, findByIdAndUpdate, hany],
    by simp [updateProductCloud, hp, hf, findByIdAndUpdate, hany], ?_⟩
  simp only [updateProductCloud, hp, hf, findByIdAndUpdate, hany, if_true]
  rw [List.forall₂_map_right_iff, List.forall₂_same]
  intro x _
  by_cases hid : x.id = pid
  · simp [hid]
  · simp [hid]

/-- Claim C4, witness at a concrete input. -/
theorem C4_witness :
    (updateProductCloud ⟨[⟨1, "a", "b", JSNum.posInf, "c", "img", 5⟩], [], 2, 9⟩ 1
        ⟨"n", "d", some "1", "c2", none⟩ UploadOutcome.err).1 = 200 :=
  (C4_update_no_file_preserves_image ⟨[⟨1, "a", "b", JSNum.posInf, "c", "img", 5⟩], [], 2, 9⟩
    1 ⟨"n", "d", some "1", "c2", none⟩ UploadOutcome.err (JSNum.finite 1)
    (by simp [parsedPrice, jsParseFloat_one_eq]) rfl
    ⟨⟨1, "a", "b", JSNum.posInf, "c", "img", 5⟩, List.mem_singleton.mpr rfl, rfl⟩).1

/-- Claim C5 (confirmed): whenever the price string parses to a finite
non-negative number, `createProduct` succeeds (201) in both variants —
provided, in the cloud variant, the upload step is absent or succeeds —
and the inserted record carries exactly the parsed price and the freshly
assigned id. -/
theorem C5_create_stores_parsed_price (st : CloudState) (req : ProductRequest)
    (u : UploadOutcome) (q : ℚ)
    (hp : parsedPrice req = some (JSNum.finite q)) (hq : 0 ≤ q)
    (hu : req.file = none ∨ ∃ url, u = UploadOutcome.ok url)
    (stL : LocalState) (reqL : LocalRequest)
    (hpL : jsParseFloat (reqL.price.getD "undefined") = some (JSNum.finite q)) :
    ((createProductCloud st req u).1 = 201 ∧
      ∃ prod, (createProductCloud st req u).2.db = prod :: st.db ∧
        prod.price = JSNum.finite q ∧ prod.id = st.nextId ∧ prod.name = req.name ∧
        prod.description = req.description ∧ prod.category = req.category ∧
        prod.date = st.now) ∧
    ((createProductLocal stL reqL).1 = 201 ∧
      ∃ prodL, (createProductLocal stL reqL).2.db = prodL :: stL.db ∧
        prodL.price = JSNum.finite q ∧ prodL.id = stL.nextId) := by
  constructor
  · rcases hu with hf | ⟨url, hu⟩
    · simp only [createProductCloud, hp, hf]
      exact ⟨trivial, _, rfl, rfl, rfl, rfl, rfl, rfl, rfl⟩
    · cases hf : req.file with
      | none =>
        simp only [createProductCloud, hp, hf]
        exact ⟨trivial, _, rfl, rfl, rfl, rfl, rfl, rfl, rfl⟩
      | some b =>
        subst hu
        simp only [createProductCloud, hp, hf]
        exact ⟨trivial, _, rfl, rfl, rfl, rfl, rfl, rfl, rfl⟩
  · cases hf : reqL.file with
    | none =>
      simp only [createProductLocal, hpL, hf]
      exact ⟨trivial, _, rfl, rfl, rfl⟩
    | some ext =>
      simp only [createProductLocal, hpL, hf]
      exact ⟨trivial, _, rfl, rfl, rfl⟩

/-- Claim C5, witness: price "1.5" leads to a 201 create. -/
theorem C5_witness :
    (createProductCloud ⟨[], [], 0, 0⟩ ⟨"n", "d", some "1.5", "c", none⟩
        UploadOutcome.err).1 = 201 :=
  (C5_create_stores_parsed_price ⟨[], [], 0, 0⟩ ⟨"n", "d", some "1.5", "c", none⟩
    UploadOutcome.err (3 / 2) (by simp [parsedPrice, jsParseFloat_one_point_five_eq])
    (by norm_num) (Or.inl rfl) ⟨[], [], 0, 0⟩ ⟨"n", "d", some "1.5", none⟩
    (by simp [jsParseFloat_one_point_five_eq])).1.1

/-- Claim C6, counterexample: with a valid price, a nonexistent id, an
attached file and a failing upload, `updateProduct` returns 500 (the
upload is awaited before the existence check), not the 404 the claim
promises under its sole proviso of price validity. -/
theorem C6_counterexample :
    (updateProductCloud ⟨[], [], 0, 3⟩ 7 ⟨"n", "d", some "1", "c", some [0]⟩
        UploadOutcome.err).1 = 500 := by
  decide

/-- Claim C6, amended: `updateProduct` on an id with no matching product
fails with NotFoundError (404) provided the price passes validation *and*
the upload step does not fail (no file attached, or the upload succeeds);
the product collection is left unchanged. -/
theorem C6_amended_update_missing_id (st : CloudState) (pid : ℕ) (req : ProductRequest)
    (u : UploadOutcome) (p : JSNum)
    (hp : parsedPrice req = some p)
    (habs : ∀ q ∈ st.db, q.id ≠ pid)
    (hu : req.file = none ∨ ∃ url, u = UploadOutcome.ok url) :
    (updateProductCloud st pid req u).1 = 404 ∧
    (updateProductCloud st pid req u).2.db = st.db := by
  have hany : (st.db.any fun q => q.id = pid) = false := by
    simp only [List.any_eq_false, decide_eq_true_eq]
    exact habs
  rcases hu with hf | ⟨url, hu⟩
  · constructor <;> simp [updateProductCloud, hp, hf, findByIdAndUpdate, hany]
  · cases hf : req.file with
    | none => constructor <;> simp [updateProductCloud, hp, hf, findByIdAndUpdate, hany]
    | some b =>
      subst hu
      constructor <;> simp [updateProductCloud, hp, hf, findByIdAndUpdate, hany]

/-- Claim C6, witness for the amended statement. -/
theorem C6_witness :
    (updateProductCloud ⟨[], [], 0, 3⟩ 7 ⟨"n", "d", some "1", "c", none⟩
        UploadOutcome.err).1 = 404 :=
  (C6_amended_update_missing_id ⟨[], [], 0, 3⟩ 7 ⟨"n", "d", some "1", "c", none⟩
    UploadOutcome.err (JSNum.finite 1) (by simp [parsedPrice, jsParseFloat_one_eq])
    (by simp) (Or.inl rfl)).1

/-- Claim C7 (confirmed): `deleteProduct` removes the record when some
product has the id (200; no record with that id remains, every other
record survives), and on an id no product has it returns 404 with the
state — hence any subsequent `listProducts` — exactly unchanged. -/
theorem C7_delete_behaviour (st : CloudState) (pid : ℕ) :
    ((∃ q ∈ st.db, q.id = pid) →
      (deleteProduct st pid).1 = 200 ∧
      (∀ r ∈ (deleteProduct st pid).2.db, r.id ≠ pid) ∧
      (∀ r ∈ st.db, r.id ≠ pid → r ∈ (deleteProduct st pid).2.db)) ∧
    ((∀ q ∈ st.db, q.id ≠ pid) →
      deleteProduct st pid = (404, st) ∧
      listProducts (deleteProduct st pid).2.db = listProducts st.db) := by
  constructor
  · rintro ⟨w, hw, hwid⟩
    have hany : (st.db.any fun q => q.id = pid) = true := by
      simp only [List.any_eq_true, decide_eq_true_eq]
      exact ⟨w, hw, hwid⟩
    refine ⟨by simp [deleteProduct, hany], ?_, ?_⟩
    · intro r hr
      simp only [deleteProduct, hany, if_true, List.mem_filter, decide_eq_true_eq] at hr
      exact hr.2
    · intro r hr hne
      simp only [deleteProduct, hany, if_true, List.mem_filter, decide_eq_true_eq]
      exact ⟨hr, hne⟩
  · intro habs
    have hany : (st.db.any fun q => q.id = pid) = false := by
      simp only [List.any_eq_false, decide_eq_true_eq]
      exact habs
    constructor <;> simp [deleteProduct, hany]

/-- Claim C7, witness: deleting the only product succeeds, deleting a
missing id reports 404. -/
theorem C7_witness :
    (deleteProduct ⟨[⟨1, "a", "b", JSNum.posInf, "c", "", 5⟩], [], 2, 9⟩ 1).1 = 200 ∧
    deleteProduct ⟨[⟨1, "a", "b", JSNum.posInf, "c", "", 5⟩], [], 2, 9⟩ 3
      = (404, ⟨[⟨1, "a", "b", JSNum.posInf, "c", "", 5⟩], [], 2, 9⟩) :=
  ⟨((C7_delete_behaviour ⟨[⟨1, "a", "b", JSNum.posInf, "c", "", 5⟩], [], 2, 9⟩ 1).1
      ⟨⟨1, "a", "b", JSNum.posInf, "c", "", 5⟩, List.mem_singleton.mpr rfl, rfl⟩).1,
    ((C7_delete_behaviour ⟨[⟨1, "a", "b", JSNum.posInf, "c", "", 5⟩], [], 2, 9⟩ 3).2
      (by decide)).1⟩

/-- Descending order on creation timestamps is total. -/
instance : IsTotal Product fun a b => b.date ≤ a.date :=
  ⟨fun a b => le_total b.date a.date⟩

/-- Descending order on creation timestamps is transitive. -/
instance : IsTrans Product fun a b => b.date ≤ a.date :=
  ⟨fun _ _ _ h1 h2 => le_trans h2 h1⟩

/-- Claim C8 (confirmed): `listProducts` returns a permutation of the
whole collection (every product, no pagination or truncation — in
particular the length is the collection's length), ordered by creation
timestamp with the most recent first. -/
theorem C8_list_products_sorted (db : List Product) :
    List.Perm (listProducts db) db ∧
    List.Sorted (fun a b => b.date ≤ a.date) (listProducts db) ∧
    (listProducts db).length = db.length :=
  ⟨List.perm_insertionSort _ db,
    List.sorted_insertionSort _ db,
    (List.perm_insertionSort _ db).length_eq⟩

/-- Claim C9 (confirmed): for a registered email whose stored password is
the hash of `pw`, logging in with any other password fails with 400
("Wrong password"), while logging in with `pw` returns a token whose
decoded payload carries exactly that user's id and an expiry 7200 seconds
(2 hours) after issuance. -/
theorem C9_login_behaviour (users : List UserRec) (now : ℕ) (u : UserRec)
    (pw wrong : String)
    (hu : findByEmail users u.email = some u)
    (hpw : u.password = bcryptHash pw)
    (hw : wrong ≠ pw) :
    login users now u.email wrong = LoginResult.badRequest "Wrong password" ∧
    ∃ tok, login users now u.email pw = LoginResult.ok tok u.id u.username ∧
      tok.userId = u.id ∧ tok.iat = now ∧ tok.exp = tok.iat + 7200 := by
  constructor
  · have hcmp : bcryptCompare wrong u.password = false := by
      simp only [bcryptCompare, hpw, beq_eq_false_iff_ne, ne_eq]
      intro h
      exact hw (bcryptHash_injective h).symm
    simp [login, hu, hcmp]
  · refine ⟨jwtSign u.id now, ?_, rfl, rfl, rfl⟩
    have hcmp : bcryptCompare pw u.password = true := by
      simp [bcryptCompare, hpw]
    simp [login, hu, hcmp, jwtSign]

/-- Claim C9, witness: a concrete one-user store. -/
theorem C9_witness :
    login [⟨1, "Admin", "admin@gmail.com", bcryptHash "admin123"⟩] 50
        "admin@gmail.com" "nope" = LoginResult.badRequest "Wrong password" :=
  (C9_login_behaviour [⟨1, "Admin", "admin@gmail.com", bcryptHash "admin123"⟩] 50
    ⟨1, "Admin", "admin@gmail.com", bcryptHash "admin123"⟩ "admin123" "nope"
    (by simp [findByEmail]) rfl (by decide)).1

/-- Claim C10 (confirmed): a PUT request that omits the `price` field
fails with 400 — `parseFloat(undefined)` is NaN — with the state exactly
unchanged, so no update touching only the other fields is possible. -/
theorem C10_update_requires_price (st : CloudState) (pid : ℕ) (req : ProductRequest)
    (u : UploadOutcome) (h : req.price = none) :
    updateProductCloud st pid req u = (400, st) := by
  have hp : parsedPrice req = none := by
    simp [parsedPrice, h, jsParseFloat_undefined_eq]
  simp [updateProductCloud, hp]

/-- Claim C10, witness at a concrete input. -/
theorem C10_witness :
    updateProductCloud ⟨[], [], 0, 0⟩ 1 ⟨"n", "d", none, "c", none⟩ UploadOutcome.err
      = (400, ⟨[], [], 0, 0⟩) :=
  C10_update_requires_price ⟨[], [], 0, 0⟩ 1 ⟨"n", "d", none, "c", none⟩
    UploadOutcome.err rfl
